import Mathlib

/-!
Verification development for the TVB-NEST-usecase1 adapter scripts.

Shallow embedding of the two adapter entry points:
  * `src/action_adapters/interscalehub/interscalehub_adapter.py`
  * `src/action_adapters_alphabrunel/tvb_simulator/tvb_adapter.py`

Side effects (hub construction, hub start/stop, directory setup, sleeping,
resource monitoring) are modelled as an explicit event trace; Python name
lookup failures (`NameError`) and other raised exceptions are modelled with
explicit error values.
-/

/-- Identifies which of the two externally defined InterscaleHub manager
classes `run_wrapper` constructs: `NestToTvbManager` or `TvbToNestManager`. -/
inductive Hub
  | nestToTvb
  | tvbToNest
deriving DecidableEq, Repr

/-- Observable side effects of `run_wrapper`
(interscalehub_adapter.py lines 30-105), in program order. -/
inductive Event
  | setupResultDirectories
  | sleepOneSecond
  | constructHub (h : Hub)
  | constructResourceMonitor (monitorName : String)
  | startMonitoring
  | hubStart
  | hubStop
  | stopMonitoring
deriving DecidableEq, Repr

/-- Events of `run_wrapper` that belong to resource-usage monitoring:
construction of the `ResourceMonitorAdapter` and its start/stop calls. -/
def Event.isMonitorEvent : Event → Bool
  | Event.constructResourceMonitor _ => true
  | Event.startMonitoring => true
  | Event.stopMonitoring => true
  | _ => false

/-- A `NameError` raised by `run_wrapper` when `direction` matches neither
enum code, identified by the line where the unbound local is referenced:
`atMonitorName` is the lookup of `name` in the f-string argument of the
`ResourceMonitorAdapter` construction (line 96), `atHubStart` is the lookup
of `hub` at `hub.start()` (line 99). -/
inductive NameErr
  | atMonitorName
  | atHubStart
deriving DecidableEq, Repr

/-- Result of one execution of `run_wrapper`: the events that happened, and
`some e` when the execution ended in a raised `NameError` instead of
returning. -/
structure RunOutcome where
  events : List Event
  error : Option NameErr
deriving DecidableEq, Repr

/-- Integer code of the `DATA_EXCHANGE_DIRECTION.NEST_TO_TVB` enum member of
the external `EBRAINS_InterscaleHUB` package.  The value is fixed by the
source comment in interscalehub_adapter.py lines 37-39
(`1 --> nest to Tvb`). -/
def DATA_EXCHANGE_DIRECTION.NEST_TO_TVB : Int := 1

/-- Integer code of the `DATA_EXCHANGE_DIRECTION.TVB_TO_NEST` enum member
(`2 --> tvb to nest`, interscalehub_adapter.py lines 37-39). -/
def DATA_EXCHANGE_DIRECTION.TVB_TO_NEST : Int := 2

/-- Events of the part of `run_wrapper` after a hub was selected and bound
(interscalehub_adapter.py lines 91-105): optional resource-monitor
construction and start, `hub.start()`, `hub.stop()`, optional monitor stop. -/
def hubRunTail (hubName : String) (is_monitoring_enabled : Bool) : List Event :=
  (if is_monitoring_enabled then
    [Event.constructResourceMonitor ("InterscaleHub_" ++ hubName),
     Event.startMonitoring]
   else []) ++
  [Event.hubStart, Event.hubStop] ++
  (if is_monitoring_enabled then [Event.stopMonitoring] else [])

/-- Embedding of `run_wrapper` (interscalehub_adapter.py lines 30-105).
`direction` is the value after the `int(direction)` conversion at line 58.
Direction code 1 sets up the result directories and constructs a
`NestToTvbManager`; code 2 sleeps one second and constructs a
`TvbToNestManager`; any other code leaves the locals `hub` and `name`
unbound, so the first later reference raises a `NameError`: at the
monitor-name f-string (line 96) when monitoring is enabled, else at
`hub.start()` (line 99). -/
def run_wrapper (direction : Int) (is_monitoring_enabled : Bool) : RunOutcome :=
  if direction = DATA_EXCHANGE_DIRECTION.NEST_TO_TVB then
    { events := [Event.setupResultDirectories, Event.constructHub Hub.nestToTvb] ++
        hubRunTail "NEST_TO_TVB" is_monitoring_enabled,
      error := none }
  else if direction = DATA_EXCHANGE_DIRECTION.TVB_TO_NEST then
    { events := [Event.sleepOneSecond, Event.constructHub Hub.tvbToNest] ++
        hubRunTail "TVB_TO_NEST" is_monitoring_enabled,
      error := none }
  else
    if is_monitoring_enabled then
      { events := [], error := some NameErr.atMonitorName }
    else
      { events := [], error := some NameErr.atHubStart }

/-! Python runtime values, as far as the two `__main__` blocks inspect them. -/

/-- Python runtime types occurring at the `check_integrity` call sites of the
two adapters. -/
inductive PyType
  | configurationsManagerT
  | dictT
  | boolT
  | listT
  | strT
deriving DecidableEq, Repr

/-- An unpickled Python object, abstracted to the degree the adapters inspect
it: only its runtime type and, for a bool, its truth value matter. -/
inductive PyObject
  | configurationsManager (tag : Nat)
  | dict (tag : Nat)
  | bool (b : Bool)
  | list (tag : Nat)
  | str (s : String)
deriving DecidableEq, Repr

/-- Runtime type of a `PyObject`, as Python `isinstance` would classify it. -/
def PyObject.typeOf : PyObject → PyType
  | PyObject.configurationsManager _ => PyType.configurationsManagerT
  | PyObject.dict _ => PyType.dictT
  | PyObject.bool _ => PyType.boolT
  | PyObject.list _ => PyType.listT
  | PyObject.str _ => PyType.strT

/-- Exceptions the embedded code can raise. -/
inductive PyErr
  | integrityError (expected got : PyType)
  | nameError (unbound : String)
  | typeError
  | keyError (key : String)
deriving DecidableEq, Repr

deriving instance DecidableEq for Except

/-- Modelled from the spec: `check_integrity` lives in
`common/utils/security_utils.py`, which is not in the source snapshot; the
spec says it "rejects unpickled objects that do not match an expected type"
and that it "raises an exception, if the integrity is compromised" (call-site
comments in both adapters).  Modelled as: raise unless the object is an
instance of the expected type. -/
def check_integrity (obj : PyObject) (expected : PyType) : Except PyErr Unit :=
  if obj.typeOf = expected then Except.ok ()
  else Except.error (PyErr.integrityError expected obj.typeOf)

/-- The three integrity checks of the InterscaleHub adapter `__main__`
(interscalehub_adapter.py lines 117-121), in program order: the
configurations manager against `ConfigurationsManager`, the log settings
against `dict`, the monitoring flag against `bool`. -/
def interscalehub_integrity_checks (cm ls mon : PyObject) : Except PyErr Unit :=
  match check_integrity cm PyType.configurationsManagerT with
  | Except.error e => Except.error e
  | Except.ok _ =>
      match check_integrity ls PyType.dictT with
      | Except.error e => Except.error e
      | Except.ok _ => check_integrity mon PyType.boolT

/-- The three integrity checks of the TVB adapter `__main__`
(tvb_adapter.py lines 169-173): configurations manager, log settings
against `dict`, interscalehub addresses against `list`. -/
def tvb_integrity_checks (cm ls addrs : PyObject) : Except PyErr Unit :=
  match check_integrity cm PyType.configurationsManagerT with
  | Except.error e => Except.error e
  | Except.ok _ =>
      match check_integrity ls PyType.dictT with
      | Except.error e => Except.error e
      | Except.ok _ => check_integrity addrs PyType.listT

/-- Truth value of a `PyObject` already checked to be a `bool`; only reached
after `check_integrity` has accepted the object as a `bool`. -/
def PyObject.asBool : PyObject → Bool
  | PyObject.bool b => b
  | _ => false

/-- Arguments of the InterscaleHub adapter as its `__main__` block binds them
from `sys.argv` (interscalehub_adapter.py lines 109-115). -/
structure InterscaleArgs where
  direction : String
  configurations_manager : Option PyObject
  log_settings : Option PyObject
  sci_params_path : String
  is_monitoring_enabled : Option PyObject
deriving DecidableEq, Repr

/-- Embedding of the argv handling of the InterscaleHub adapter `__main__`
(interscalehub_adapter.py lines 109-115).  `decode` stands for the composite
`pickle.loads(base64.b64decode(.))`; `none` is a decoding failure.  Positions
1 (direction) and 4 (science-parameters XML path) are taken verbatim from
`sys.argv`; positions 2, 3 and 5 are passed through `decode`. -/
def interscalehub_parse_argv (decode : String → Option PyObject)
    (argv : List String) : Option InterscaleArgs :=
  match argv with
  | _prog :: a1 :: a2 :: a3 :: a4 :: a5 :: _ =>
      some { direction := a1,
             configurations_manager := decode a2,
             log_settings := decode a3,
             sci_params_path := a4,
             is_monitoring_enabled := decode a5 }
  | _ => none

/-- The InterscaleHub adapter `__main__` after argv decoding
(interscalehub_adapter.py lines 117-127): run the three integrity checks;
only when all pass, call `run_wrapper`. -/
def interscalehub_main (cm ls mon : PyObject) (direction : Int) :
    Except PyErr RunOutcome :=
  match interscalehub_integrity_checks cm ls mon with
  | Except.error e => Except.error e
  | Except.ok _ => Except.ok (run_wrapper direction mon.asBool)

/-! Embedding of the TVB adapter (tvb_adapter.py). -/

/-- Modelled from the spec: the `Parameters` class
(`action_adapters_alphabrunel/parameters.py`) is not in the source snapshot.
The adapter reads exactly three attributes from it: `path`,
`simulation_time` and `time_synch` ("minimum step size for simulation",
tvb_adapter.py line 141).  Numeric values are carried as their printed
representation, since the adapter never computes with them. -/
structure Parameters where
  path : String
  simulation_time : String
  time_synch : String
deriving DecidableEq, Repr

/-- State of a `TVBAdapter` instance, as far as the embedded methods read or
write it (tvb_adapter.py lines 40-155).  The externally constructed
simulator and MPI wrapper are represented by flags recording whether
`execute_init_command` has built them. -/
structure TVBAdapter where
  parameters : Parameters
  nest_to_tvb_address : Option String
  tvb_to_nest_address : Option String
  simulator_configured : Bool
  simulation_length : Option String
  mpi_initialized : Bool
deriving DecidableEq, Repr

/-- Embedding of `TVBAdapter.execute_init_command` (tvb_adapter.py lines
128-141): configure the TVB simulator, set its `simulation_length` to
`parameters.simulation_time`, build the MPI wrapper and initialize MPI, and
return `parameters.time_synch` (the minimum step size). -/
def TVBAdapter.execute_init_command (a : TVBAdapter) : TVBAdapter × String :=
  ({ a with simulator_configured := true,
            simulation_length := some a.parameters.simulation_time,
            mpi_initialized := true },
   a.parameters.time_synch)

/-- Embedding of `TVBAdapter.execute_end_command` (tvb_adapter.py lines
149-155).  The plot call is
`plt.plot(p_raw_results[0], raw_results[1][:, 0, :, 0] + 3.0)`: its first
argument subscripts the parameter `p_raw_results` (a `TypeError` when it is
`None`), its second reads the module-level global `raw_results` (a
`NameError` when no such global is bound).  Python evaluates the arguments
left to right.  On success the figure is saved under
`parameters.path + "/figures/plot_tvb.png"`; the result records the pair of
plotted series and the save path. -/
def TVBAdapter.execute_end_command {α : Type} (params : Parameters)
    (raw_results p_raw_results : Option (α × α)) :
    Except PyErr ((α × α) × String) :=
  match p_raw_results with
  | Option.none => Except.error PyErr.typeError
  | Option.some p =>
      match raw_results with
      | Option.none => Except.error (PyErr.nameError "raw_results")
      | Option.some g =>
          Except.ok ((p.1, g.2), params.path ++ "/figures/plot_tvb.png")

/-- Modelled from the spec: the `SteeringCommands` enum comes from the
external `EBRAINS_RichEndpoint` package; the spec glossary lists the
lifecycle instructions INIT/START/END. -/
inductive SteeringCommands
  | INIT
  | START
  | END
deriving DecidableEq, Repr

/-- Python `.name` of a `SteeringCommands` member. -/
def SteeringCommands.name : SteeringCommands → String
  | SteeringCommands.INIT => "INIT"
  | SteeringCommands.START => "START"
  | SteeringCommands.END => "END"

/-- Embedding of the enum lookup `SteeringCommands[user_action_command]`
(tvb_adapter.py lines 193 and 201): `some c` when the string is the name of
the member `c`, `none` when the lookup raises a `KeyError`. -/
def steeringFromString (s : String) : Option SteeringCommands :=
  if s = "INIT" then some SteeringCommands.INIT
  else if s = "START" then some SteeringCommands.START
  else if s = "END" then some SteeringCommands.END
  else none

/-- Python `str` of the response dictionary
`{SIMULATOR.PID.name: os.getpid(), SIMULATOR.LOCAL_MINIMUM_STEP_SIZE.name:
local_minimum_step_size}` printed at tvb_adapter.py line 188; the expected
format is spelled out in the source comment at lines 182-183. -/
def pyDictStr (pid : Nat) (lms : String) : String :=
  "\x7b\x27PID\x27: " ++ toString pid ++
    ", \x27LOCAL_MINIMUM_STEP_SIZE\x27: " ++ lms ++ "\x7d"

/-- The stderr message of the unknown-steering-command branch
(tvb_adapter.py lines 200-202); `str` of an enum member is
`SteeringCommands.<name>`. -/
def unknownCommandMsg (c : SteeringCommands) : String :=
  "unknown steering command: SteeringCommands." ++ c.name

/-- Observable outcome of one run of the TVB adapter `__main__` block after
the integrity checks: everything written to stdout and stderr, how many
lines were read from stdin, whether the simulation ran and the plot was
produced, an uncaught exception if any, and the process exit code. -/
structure TvbMainTrace where
  stdout : List String
  stderr : List String
  stdin_reads : Nat
  ran_simulation : Bool
  plotted : Bool
  uncaught : Option PyErr
  exit_code : Nat
deriving DecidableEq, Repr

/-- Embedding of the TVB adapter `__main__` block after the integrity checks
(tvb_adapter.py lines 176-203).  The adapter is constructed, INIT runs and
its return value is printed together with the pid as the response
dictionary; then one line is read from stdin and interpreted as a steering
command.  START runs the simulation (`sim_results` stands for the value the
external `run_simulation_and_data_exchange` returns), binds the module
global `raw_results`, plots, and exits 0.  Any other valid member prints
the unknown-command message to stderr and exits 1.  A string that is no
member name makes the lookup `SteeringCommands[...]` at line 193 raise an
uncaught `KeyError`; the interpreter then terminates with exit code 1. -/
def tvb_main {α : Type} (pid : Nat) (adapter : TVBAdapter)
    (sim_results : α × α) (stdin_line : String) : TvbMainTrace :=
  let local_minimum_step_size := adapter.execute_init_command.2
  let out := pyDictStr pid local_minimum_step_size
  match steeringFromString stdin_line with
  | some SteeringCommands.START =>
      let raw_results := sim_results
      let postPlot := TVBAdapter.execute_end_command adapter.parameters
        (some raw_results) (some raw_results)
      { stdout := [out], stderr := [], stdin_reads := 1,
        ran_simulation := true,
        plotted := match postPlot with
          | Except.ok _ => true
          | Except.error _ => false,
        uncaught := none, exit_code := 0 }
  | some c =>
      { stdout := [out], stderr := [unknownCommandMsg c], stdin_reads := 1,
        ran_simulation := false, plotted := false,
        uncaught := none, exit_code := 1 }
  | none =>
      { stdout := [out], stderr := [], stdin_reads := 1,
        ran_simulation := false, plotted := false,
        uncaught := some (PyErr.keyError stdin_line), exit_code := 1 }

/-- The full TVB adapter `__main__` (tvb_adapter.py lines 158-203): the
three integrity checks run first and any failure raises before the adapter
or the simulator is touched. -/
def tvb_main_full {α : Type} (cm ls addrs : PyObject) (pid : Nat)
    (adapter : TVBAdapter) (sim_results : α × α) (stdin_line : String) :
    Except PyErr TvbMainTrace :=
  match tvb_integrity_checks cm ls addrs with
  | Except.error e => Except.error e
  | Except.ok _ => Except.ok (tvb_main pid adapter sim_results stdin_line)

/-- A concrete `Parameters` value used by witnesses. -/
def sampleParameters : Parameters :=
  { path := "/tmp/results", simulation_time := "1000.0", time_synch := "0.1" }

/-- A concrete `TVBAdapter` value used by witnesses. -/
def sampleAdapter : TVBAdapter :=
  { parameters := sampleParameters,
    nest_to_tvb_address := some "endpoint_a",
    tvb_to_nest_address := some "endpoint_b",
    simulator_configured := false,
    simulation_length := none,
    mpi_initialized := false }

/-! Sanity checks of the embedding on concrete inputs. -/

example : (run_wrapper 1 false).events =
    [Event.setupResultDirectories, Event.constructHub Hub.nestToTvb,
     Event.hubStart, Event.hubStop] := by decide

example : (run_wrapper 2 true).events =
    [Event.sleepOneSecond, Event.constructHub Hub.tvbToNest,
     Event.constructResourceMonitor "InterscaleHub_TVB_TO_NEST",
     Event.startMonitoring, Event.hubStart, Event.hubStop,
     Event.stopMonitoring] := by decide

example : (run_wrapper 3 true).error = some NameErr.atMonitorName := by decide

example : interscalehub_main (PyObject.configurationsManager 0) (PyObject.dict 0)
    (PyObject.bool false) 1 = Except.ok (run_wrapper 1 false) := by decide

example : interscalehub_main (PyObject.dict 0) (PyObject.dict 0)
    (PyObject.bool false) 1 =
    Except.error (PyErr.integrityError PyType.configurationsManagerT PyType.dictT) := by
  decide

example : (tvb_main 41 sampleAdapter ((5 : Int), (7 : Int)) "START").stdout =
    ["\x7b\x27PID\x27: 41, \x27LOCAL_MINIMUM_STEP_SIZE\x27: 0.1\x7d"] := by decide

example : (tvb_main 41 sampleAdapter ((5 : Int), (7 : Int)) "START").exit_code = 0 := by
  decide

example : (tvb_main 41 sampleAdapter ((5 : Int), (7 : Int)) "END").stderr =
    ["unknown steering command: SteeringCommands.END"] := by decide

example : (tvb_main 41 sampleAdapter ((5 : Int), (7 : Int)) "BOGUS").uncaught =
    some (PyErr.keyError "BOGUS") := by decide

/-! Claim theorems. -/

/-- C1: for every call to `run_wrapper`, a `NestToTvbManager` is constructed
exactly when the direction decodes to the `NEST_TO_TVB` code (1), and a
`TvbToNestManager` exactly when it decodes to the `TVB_TO_NEST` code (2);
the direction-to-manager mapping is exactly this one. -/
theorem run_wrapper_hub_selection (d : Int) (m : Bool) (hb : Hub) :
    Event.constructHub hb ∈ (run_wrapper d m).events ↔
      ((d = DATA_EXCHANGE_DIRECTION.NEST_TO_TVB ∧ hb = Hub.nestToTvb) ∨
       (d = DATA_EXCHANGE_DIRECTION.TVB_TO_NEST ∧ hb = Hub.tvbToNest)) := by
  unfold run_wrapper hubRunTail
  unfold DATA_EXCHANGE_DIRECTION.NEST_TO_TVB DATA_EXCHANGE_DIRECTION.TVB_TO_NEST
  by_cases h1 : d = 1
  · subst h1
    cases m <;> cases hb <;> simp
  · by_cases h2 : d = 2
    · subst h2
      cases m <;> cases hb <;> simp
    · cases m <;> cases hb <;> simp [h1, h2]

/-- C6: in every execution of `run_wrapper` that selects a hub,
`hub.start()` happens before `hub.stop()`, and when monitoring is enabled,
`start_monitoring` happens before `hub.start()` and `stop_monitoring` after
`hub.stop()`. -/
theorem run_wrapper_start_before_stop (d : Int) (m : Bool)
    (h : d = DATA_EXCHANGE_DIRECTION.NEST_TO_TVB ∨
         d = DATA_EXCHANGE_DIRECTION.TVB_TO_NEST) :
    List.Sublist [Event.hubStart, Event.hubStop] (run_wrapper d m).events ∧
    (m = true →
      List.Sublist
        [Event.startMonitoring, Event.hubStart, Event.hubStop,
         Event.stopMonitoring]
        (run_wrapper d m).events) := by
  rcases h with rfl | rfl <;> cases m
  · exact ⟨by decide, fun hm => Bool.noConfusion hm⟩
  · exact ⟨by decide, fun _ => by decide⟩
  · exact ⟨by decide, fun hm => Bool.noConfusion hm⟩
  · exact ⟨by decide, fun _ => by decide⟩

/-- Witness for C6 at direction code 1 with monitoring enabled. -/
theorem run_wrapper_start_before_stop_witness :
    List.Sublist [Event.hubStart, Event.hubStop] (run_wrapper 1 true).events ∧
    List.Sublist
      [Event.startMonitoring, Event.hubStart, Event.hubStop,
       Event.stopMonitoring]
      (run_wrapper 1 true).events := by
  have h := run_wrapper_start_before_stop 1 true (Or.inl rfl)
  exact ⟨h.1, h.2 rfl⟩

/-- C8 counterexample: at direction 3 with monitoring enabled, the
`NameError` is raised at the monitor-name f-string (line 96), not at
`hub.start()`; `hub.start()` is never even reached. -/
theorem run_wrapper_unbound_counterexample :
    (run_wrapper 3 true).error = some NameErr.atMonitorName ∧
    NameErr.atMonitorName ≠ NameErr.atHubStart ∧
    Event.hubStart ∉ (run_wrapper 3 true).events := by decide

/-- C8 amended: for every direction decoding to neither code, `run_wrapper`
performs no event (no hub is constructed, no setup runs) and raises a
`NameError` on the first reference to an unbound local: at the monitor-name
f-string when monitoring is enabled, else at `hub.start()`; a direction
decoding to one of the two codes is thus a precondition of `run_wrapper`. -/
theorem run_wrapper_direction_precondition (d : Int) (m : Bool)
    (h1 : d ≠ DATA_EXCHANGE_DIRECTION.NEST_TO_TVB)
    (h2 : d ≠ DATA_EXCHANGE_DIRECTION.TVB_TO_NEST) :
    (run_wrapper d m).events = [] ∧
    (run_wrapper d m).error =
      some (if m then NameErr.atMonitorName else NameErr.atHubStart) := by
  unfold run_wrapper
  rw [if_neg h1, if_neg h2]
  cases m <;> exact ⟨rfl, rfl⟩

/-- Witness for C8 at direction code 5 with monitoring disabled. -/
theorem run_wrapper_direction_precondition_witness :
    (run_wrapper 5 false).events = [] ∧
    (run_wrapper 5 false).error = some NameErr.atHubStart := by
  have h := run_wrapper_direction_precondition 5 false (by decide) (by decide)
  exact ⟨h.1, h.2⟩

/-- C10 counterexample: with direction 1 and monitoring disabled,
`run_wrapper` also creates the result directories, an effect that is
neither the hub construction nor `hub.start()` nor `hub.stop()`. -/
theorem run_wrapper_effects_counterexample :
    Event.setupResultDirectories ∈ (run_wrapper 1 false).events ∧
    Event.setupResultDirectories ∉
      [Event.constructHub Hub.nestToTvb, Event.hubStart, Event.hubStop] := by
  decide

/-- C10 amended: in every hub-selecting execution of `run_wrapper` with
monitoring disabled, no monitoring event occurs, and the effects are the
direction-specific setup (result-directory creation for code 1, a
one-second sleep for code 2), hub construction, then `hub.start()` followed
by `hub.stop()`; the monitoring flag affects nothing besides the
creation and start/stop of the resource monitor. -/
theorem run_wrapper_monitoring_frame (d : Int) (m : Bool)
    (h : d = DATA_EXCHANGE_DIRECTION.NEST_TO_TVB ∨
         d = DATA_EXCHANGE_DIRECTION.TVB_TO_NEST) :
    (∀ e ∈ (run_wrapper d false).events, e.isMonitorEvent = false) ∧
    (run_wrapper d false).events =
      (if d = DATA_EXCHANGE_DIRECTION.NEST_TO_TVB then
        [Event.setupResultDirectories, Event.constructHub Hub.nestToTvb]
       else [Event.sleepOneSecond, Event.constructHub Hub.tvbToNest]) ++
      [Event.hubStart, Event.hubStop] ∧
    (run_wrapper d m).events.filter (fun e => !e.isMonitorEvent) =
      (run_wrapper d false).events := by
  rcases h with rfl | rfl <;> cases m <;> refine ⟨?_, ?_, ?_⟩ <;> decide

/-- Witness for C10 at direction code 2, comparing the monitored and
unmonitored traces. -/
theorem run_wrapper_monitoring_frame_witness :
    (run_wrapper 2 false).events =
      [Event.sleepOneSecond, Event.constructHub Hub.tvbToNest,
       Event.hubStart, Event.hubStop] ∧
    (run_wrapper 2 true).events.filter (fun e => !e.isMonitorEvent) =
      (run_wrapper 2 false).events := by
  have h := run_wrapper_monitoring_frame 2 true (Or.inr rfl)
  refine ⟨?_, h.2.2⟩
  rw [h.2.1]
  decide

/-- C2: in every run of the TVB adapter main block, exactly one line goes
to stdout, namely the text form of the dictionary
`{PID: pid, LOCAL_MINIMUM_STEP_SIZE: v}` where `pid` is the process id and
`v` is the value `execute_init_command` returned, which equals the
`time_synch` field of the adapter's `Parameters` object. -/
theorem tvb_stdout_contract {α : Type} (pid : Nat) (a : TVBAdapter)
    (r : α × α) (s : String) :
    (tvb_main pid a r s).stdout = [pyDictStr pid a.parameters.time_synch] ∧
    a.execute_init_command.2 = a.parameters.time_synch := by
  constructor
  · unfold tvb_main
    split <;> rfl
  · rfl

/-- C3: when the steering command read from stdin is START, the TVB adapter
runs the simulation, produces the plot and exits 0; for every other
steering command it prints the unknown-steering-command message to stderr
and exits 1; and for every stdin string whatsoever the process exit code is
0 or 1. -/
theorem tvb_steering_contract {α : Type} (pid : Nat) (a : TVBAdapter)
    (r : α × α) (c : SteeringCommands) (s : String) :
    (c = SteeringCommands.START →
      (tvb_main pid a r c.name).ran_simulation = true ∧
      (tvb_main pid a r c.name).plotted = true ∧
      (tvb_main pid a r c.name).exit_code = 0) ∧
    (c ≠ SteeringCommands.START →
      (tvb_main pid a r c.name).stderr = [unknownCommandMsg c] ∧
      (tvb_main pid a r c.name).exit_code = 1) ∧
    ((tvb_main pid a r s).exit_code = 0 ∨ (tvb_main pid a r s).exit_code = 1) := by
  refine ⟨?_, ?_, ?_⟩
  · intro hc
    subst hc
    exact ⟨rfl, rfl, rfl⟩
  · intro hc
    cases c
    · exact ⟨rfl, rfl⟩
    · exact absurd rfl hc
    · exact ⟨rfl, rfl⟩
  · unfold tvb_main
    split
    · exact Or.inl rfl
    · exact Or.inr rfl
    · exact Or.inr rfl

/-- Witness for C3: START exits 0 after running and plotting, END gets the
unknown-command message and exit code 1. -/
theorem tvb_steering_contract_witness :
    (tvb_main 7 sampleAdapter ((1 : Int), (2 : Int))
      (SteeringCommands.name SteeringCommands.START)).exit_code = 0 ∧
    (tvb_main 7 sampleAdapter ((1 : Int), (2 : Int))
      (SteeringCommands.name SteeringCommands.END)).stderr =
      [unknownCommandMsg SteeringCommands.END] := by
  refine ⟨?_, ?_⟩
  · exact ((tvb_steering_contract 7 sampleAdapter ((1 : Int), (2 : Int))
      SteeringCommands.START "X").1 rfl).2.2
  · exact ((tvb_steering_contract 7 sampleAdapter ((1 : Int), (2 : Int))
      SteeringCommands.END "X").2.1 (by decide)).1

/-- C7: every run of the TVB adapter main block reads stdin exactly once,
whatever the steering command turns out to be. -/
theorem tvb_stdin_read_once {α : Type} (pid : Nat) (a : TVBAdapter)
    (r : α × α) (s : String) :
    (tvb_main pid a r s).stdin_reads = 1 := by
  unfold tvb_main
  split <;> rfl

/-- C4: in both adapter main blocks, a type mismatch in any checked
unpickled object makes the run end in an exception with no simulator or hub
code run; when every checked object matches its expected type, execution
proceeds past the checks into `run_wrapper` resp. the adapter main body. -/
theorem check_integrity_guards (cm ls mon addrs : PyObject) (d : Int)
    (pid : Nat) (a : TVBAdapter) (r : Int × Int) (s : String) :
    (cm.typeOf = PyType.configurationsManagerT → ls.typeOf = PyType.dictT →
      mon.typeOf = PyType.boolT →
      interscalehub_main cm ls mon d = Except.ok (run_wrapper d mon.asBool)) ∧
    (cm.typeOf ≠ PyType.configurationsManagerT ∨ ls.typeOf ≠ PyType.dictT ∨
      mon.typeOf ≠ PyType.boolT →
      ∃ e, interscalehub_main cm ls mon d = Except.error e) ∧
    (cm.typeOf = PyType.configurationsManagerT → ls.typeOf = PyType.dictT →
      addrs.typeOf = PyType.listT →
      tvb_main_full cm ls addrs pid a r s =
        Except.ok (tvb_main pid a r s)) ∧
    (cm.typeOf ≠ PyType.configurationsManagerT ∨ ls.typeOf ≠ PyType.dictT ∨
      addrs.typeOf ≠ PyType.listT →
      ∃ e, tvb_main_full cm ls addrs pid a r s = Except.error e) := by
  refine ⟨?_, ?_, ?_, ?_⟩
  · intro h1 h2 h3
    unfold interscalehub_main interscalehub_integrity_checks check_integrity
    rw [if_pos h1, if_pos h2, if_pos h3]
  · intro h
    unfold interscalehub_main interscalehub_integrity_checks check_integrity
    rcases h with h | h | h
    · rw [if_neg h]
      exact ⟨_, rfl⟩
    · by_cases h1 : cm.typeOf = PyType.configurationsManagerT
      · rw [if_pos h1, if_neg h]
        exact ⟨_, rfl⟩
      · rw [if_neg h1]
        exact ⟨_, rfl⟩
    · by_cases h1 : cm.typeOf = PyType.configurationsManagerT
      · rw [if_pos h1]
        by_cases h2 : ls.typeOf = PyType.dictT
        · rw [if_pos h2, if_neg h]
          exact ⟨_, rfl⟩
        · rw [if_neg h2]
          exact ⟨_, rfl⟩
      · rw [if_neg h1]
        exact ⟨_, rfl⟩
  · intro h1 h2 h3
    unfold tvb_main_full tvb_integrity_checks check_integrity
    rw [if_pos h1, if_pos h2, if_pos h3]
  · intro h
    unfold tvb_main_full tvb_integrity_checks check_integrity
    rcases h with h | h | h
    · rw [if_neg h]
      exact ⟨_, rfl⟩
    · by_cases h1 : cm.typeOf = PyType.configurationsManagerT
      · rw [if_pos h1, if_neg h]
        exact ⟨_, rfl⟩
      · rw [if_neg h1]
        exact ⟨_, rfl⟩
    · by_cases h1 : cm.typeOf = PyType.configurationsManagerT
      · rw [if_pos h1]
        by_cases h2 : ls.typeOf = PyType.dictT
        · rw [if_pos h2, if_neg h]
          exact ⟨_, rfl⟩
        · rw [if_neg h2]
          exact ⟨_, rfl⟩
      · rw [if_neg h1]
        exact ⟨_, rfl⟩

/-- Witness for C4: matching objects proceed to `run_wrapper`, a dict in
place of the configurations manager is rejected. -/
theorem check_integrity_guards_witness :
    interscalehub_main (PyObject.configurationsManager 1) (PyObject.dict 2)
      (PyObject.bool true) 1 = Except.ok (run_wrapper 1 true) ∧
    (∃ e, interscalehub_main (PyObject.dict 9) (PyObject.dict 2)
      (PyObject.bool true) 1 = Except.error e) := by
  have hok := check_integrity_guards (PyObject.configurationsManager 1)
    (PyObject.dict 2) (PyObject.bool true) (PyObject.list 3) 1 7 sampleAdapter
    ((1 : Int), (2 : Int)) "START"
  have hbad := check_integrity_guards (PyObject.dict 9)
    (PyObject.dict 2) (PyObject.bool true) (PyObject.list 3) 1 7 sampleAdapter
    ((1 : Int), (2 : Int)) "START"
  exact ⟨hok.1 rfl rfl rfl, hbad.2.1 (Or.inl (by decide))⟩

/-- C5 counterexample: argv position 4 (the science-parameter XML path) is
taken verbatim by the InterscaleHub adapter, not base64-decoded and
unpickled; with a decode that would turn "sci_params.xml" into a different
object, the parsed arguments still carry the raw string. -/
theorem interscalehub_argv_counterexample :
    interscalehub_parse_argv (fun s => some (PyObject.str (s ++ "#decoded")))
        ["prog", "1", "cmblob", "logblob", "sci_params.xml", "monblob"] =
      some { direction := "1",
             configurations_manager := some (PyObject.str "cmblob#decoded"),
             log_settings := some (PyObject.str "logblob#decoded"),
             sci_params_path := "sci_params.xml",
             is_monitoring_enabled := some (PyObject.str "monblob#decoded") } ∧
    ("sci_params.xml" : String) ≠ "sci_params.xml#decoded" := by
  exact ⟨rfl, by decide⟩

/-- C5 amended: argv positions 1..5 of the InterscaleHub adapter carry, in
order, the direction code, the configuration-manager blob, the log-settings
blob, the science-parameter file path, and the monitoring-flag blob;
positions 2, 3 and 5 are decoded by base64-decoding followed by unpickling,
while positions 1 and 4 are taken verbatim from `sys.argv`. -/
theorem interscalehub_argv_positions (decode : String → Option PyObject)
    (prog a1 a2 a3 a4 a5 : String) (rest : List String) :
    interscalehub_parse_argv decode
        (prog :: a1 :: a2 :: a3 :: a4 :: a5 :: rest) =
      some { direction := a1,
             configurations_manager := decode a2,
             log_settings := decode a3,
             sci_params_path := a4,
             is_monitoring_enabled := decode a5 } := rfl

/-- C9: `TVBAdapter.execute_end_command` reads the module-level global
`raw_results`; when no such global is bound it raises a `NameError` even
with `p_raw_results` supplied, and it completes only when the global is
bound (as the `__main__` block does before calling it). -/
theorem execute_end_command_needs_global {α : Type} (params : Parameters)
    (p : α × α) (go : Option (α × α)) (res : (α × α) × String) :
    TVBAdapter.execute_end_command params Option.none (some p) =
      Except.error (PyErr.nameError "raw_results") ∧
    (TVBAdapter.execute_end_command params go (some p) = Except.ok res →
      go.isSome = true) := by
  constructor
  · rfl
  · intro h
    cases go with
    | none => exact Except.noConfusion h
    | some g => rfl

/-- Witness for C9 at concrete integer results. -/
theorem execute_end_command_needs_global_witness :
    TVBAdapter.execute_end_command sampleParameters Option.none
      (some ((1 : Int), (2 : Int))) =
      Except.error (PyErr.nameError "raw_results") ∧
    (Option.some ((3 : Int), (4 : Int))).isSome = true := by
  have h := execute_end_command_needs_global sampleParameters
    ((1 : Int), (2 : Int)) (some ((3 : Int), (4 : Int)))
    (((1 : Int), (4 : Int)), "/tmp/results/figures/plot_tvb.png")
  exact ⟨h.1, h.2 rfl⟩

